import Mathlib

/-!
Verification development for the NIfTI-gridview grid-composition pipeline
(`nifti_gridview/visualization/draw_grid.py`), the drawing-thread wrapper
(`nifti_gridview/ngv_model/draw_grid_wrapper.py`) and the io wrapper
(`nifti_gridview/ngv_io/ngv_io_wrapper.py`).

Modelling conventions:
* A 3-D volume (configuration Z x W x H in the source docstring) is a shape
  triple together with a total voxel function; only in-range voxels are
  observable.  Pixel intensities are modelled exactly over ℤ; the float
  composition "normalize to [0,1], multiply by 255, cast to uint8" of
  `draw_grid` lines 90-91 is modelled by exact integer floor division.
* Fallible Python code is modelled in `Except PyExc`; `PyExc` names the
  exception class that the corresponding Python expression raises.
* External library calls (`torchvision.utils.make_grid`, `torch.nn.ConstantPad3d`,
  `cv2.findContours`, `cv2.drawContours`, `cv2.applyColorMap`) are modelled from
  their documented behaviour; `cv2.applyColorMap`'s lookup tables and the
  contour extractor are kept as explicit parameters where a claim only
  depends on their interface.
* Python semantics is Python 3: `None >= 0` raises `TypeError`.
-/

set_option maxRecDepth 8000

namespace NGV

/-- Python exception kinds raised by the modelled code paths. -/
inductive PyExc
  | typeError
  | assertionError
  | keyError
  | attributeError
  | valueError
  | runtimeError
  | zeroDivisionError
deriving DecidableEq

/-- An RGB pixel (three uint8 channel values). -/
abbrev Rgb := ℕ × ℕ × ℕ

/-- A 3-D volume: depth `d` and the two spatial extents `h` (first spatial
axis, `W` in the source docstring) and `w` (second spatial axis, `H` in the
source docstring), with a total voxel function.  Only voxels with
`i < d, r < h, c < w` are observable. -/
structure Vol where
  d : ℕ
  h : ℕ
  w : ℕ
  pix : ℕ → ℕ → ℕ → ℤ

/-- A single-channel 2-D grid produced by the tiling step. -/
structure GridOut where
  H : ℕ
  W : ℕ
  pix : ℕ → ℕ → ℤ

/-- A composed RGB image (uint8 per channel). -/
structure Img where
  H : ℕ
  W : ℕ
  pix : ℕ → ℕ → Rgb

/-- Model of a C-style cast of an integer quantity to `uint8`: wrap modulo 256
(numpy `astype('uint8')` on integral data). -/
def toU8 (z : ℤ) : ℕ := (z % 256).toNat

/-- Model of `seg.astype('uint8')` (draw_grid.py line 131): every voxel is cast
to uint8. -/
def castU8Vol (v : Vol) : Vol :=
  ⟨v.d, v.h, v.w, fun i r c => (toU8 (v.pix i r c) : ℤ)⟩

/-- Model of `assert offset >= 0 or offset is None` (draw_grid.py lines 50 and
127).  Python 3 evaluates `offset >= 0` first; when `offset` is `None` this
comparison itself raises `TypeError`, so the `offset is None` disjunct is never
reached.  A negative offset makes the assertion fail (`AssertionError`). -/
def offsetAssert (offset : Option ℤ) : Except PyExc Unit :=
  match offset with
  | some k => if 0 ≤ k then .ok () else .error .assertionError
  | none => .error .typeError

/-- Model of the offset step (draw_grid.py lines 60-62): `image.squeeze()`
followed by `nn.ConstantPad3d((0, 0, 0, 0, offset, 0), 0)`.  `squeeze` drops
every axis of extent 1; if any axis of the 3-D input has extent 1 the squeezed
tensor has fewer than 3 dimensions and the subsequent 3-D constant padding
raises (torch `F.pad` requires the padding length to be at most twice the
input dimension).  Otherwise `squeeze` is the identity and the padding
prepends `offset` zero-filled slices along the depth axis. -/
def offsetStep (offset : Option ℤ) (v : Vol) : Except PyExc Vol :=
  match offset with
  | none => .ok v
  | some k =>
    if v.d = 1 ∨ v.h = 1 ∨ v.w = 1 then .error .runtimeError
    else .ok ⟨v.d + k.toNat, v.h, v.w,
      fun i r c => if i < k.toNat then 0 else v.pix (i - k.toNat) r c⟩

/-- Integer ceiling square root, modelling `np.int(np.ceil(np.sqrt(n)))`
(draw_grid.py lines 70 and 144): the least `r` with `n ≤ r * r`. -/
def ceilSqrt (n : ℕ) : ℕ :=
  (((List.range (n + 1)).find? fun r => decide (n ≤ r * r))).getD n

/-- The row count passed to `make_grid`: the configured value when provided,
otherwise `ceil(sqrt(number of slices))` (draw_grid.py lines 69-70). -/
def effNrow (nrow : Option ℕ) (d : ℕ) : ℕ :=
  match nrow with
  | some n => n
  | none => ceilSqrt d

/-- A crop request `{'center': [c1, c2], 'size': [s1, s2]}`. -/
structure CropSpec where
  center1 : ℤ
  center2 : ℤ
  size1 : ℤ
  size2 : ℤ

/-- Lower crop bound for one axis (draw_grid.py line 80):
`np.max([0, int(c - s // 2)])` with Python floor division. -/
def crop_lower (c s : ℤ) : ℤ := max 0 (c - Int.fdiv s 2)

/-- Clamp an integer index for Python slicing on an axis of length `len`:
negative indices count from the end, out-of-range indices are clamped. -/
def pyIdx (x : ℤ) (len : ℕ) : ℕ :=
  if x < 0 then ((len : ℤ) + x).toNat else min x.toNat len

/-- Model of the crop step (draw_grid.py lines 74-84, identically lines
148-158).  After `unsqueeze(1)` the tensor shape is `(d, 1, h, w)`, so
`im_shape[1:]` is `(1, h, w)`; the source zips the two upper bounds against
`im_shape[1:]`, pairing the first sliced axis with the channel extent `1` and
the second sliced axis with the extent `h` of the *first* spatial axis.  The
slice `image[:, :, l1:u1, l2:u2]` touches only the two spatial axes; Python
slicing clamps the bounds to the actual extents. -/
def cropStep (crop : Option CropSpec) (v : Vol) : Vol :=
  match crop with
  | none => v
  | some cr =>
    let l1 := crop_lower cr.center1 cr.size1
    let l2 := crop_lower cr.center2 cr.size2
    let u1 := min (l1 + cr.size1) (1 : ℤ)
    let u2 := min (l2 + cr.size2) (v.h : ℤ)
    let a1 := pyIdx l1 v.h
    let b1 := pyIdx u1 v.h
    let a2 := pyIdx l2 v.w
    let b2 := pyIdx u2 v.w
    ⟨v.d, b1 - a1, b2 - a2, fun i r c => v.pix i (a1 + r) (a2 + c)⟩

/-- All in-range voxel values of a volume, in lexicographic order. -/
def volVals (v : Vol) : List ℤ :=
  ((List.range (v.d * v.h * v.w)).map fun t =>
    v.pix (t / (v.h * v.w)) (t % (v.h * v.w) / v.w) (t % (v.h * v.w) % v.w))

/-- Minimum voxel value (0 for an empty volume), as used by
`make_grid(normalize=True)`. -/
def volMin (v : Vol) : ℤ :=
  match volVals v with
  | [] => 0
  | x :: xs => xs.foldl min x

/-- Maximum voxel value (0 for an empty volume). -/
def volMax (v : Vol) : ℤ :=
  match volVals v with
  | [] => 0
  | x :: xs => xs.foldl max x

/-- Exact-integer composition of `make_grid`'s min-max normalization with the
`* 255` scaling and uint8 truncation of draw_grid.py line 91:
`trunc (255 * (x - lo) / (hi - lo))` for a non-constant volume, `0` for a
constant one (the library divides by an epsilon-guarded denominator, sending a
constant tensor to 0). -/
def normScale (lo hi x : ℤ) : ℤ :=
  if hi = lo then 0 else Int.fdiv (255 * (x - lo)) (hi - lo)

/-- `xmaps` of `torchvision.utils.make_grid`: `min(nrow, nmaps)` — the number
of grid columns. -/
def gridXmaps (nrow n : ℕ) : ℕ := min nrow n

/-- `ymaps` of `make_grid`: `ceil(nmaps / xmaps)` — the number of grid rows. -/
def gridYmaps (n xmaps : ℕ) : ℕ := (n + xmaps - 1) / xmaps

/-- Output grid height: `(h + padding) * ymaps + padding`. -/
def gridH (h padding ymaps : ℕ) : ℕ := (h + padding) * ymaps + padding

/-- Output grid width: `(w + padding) * xmaps + padding`. -/
def gridW (w padding xmaps : ℕ) : ℕ := (w + padding) * xmaps + padding

/-- Cell lookup of the `make_grid` tiling: which slice voxel (if any) the grid
pixel `(i, j)` displays; `none` means the pixel lies in the padding/margin
area and shows the fill value. -/
def tileSlot (n h w xmaps padding i j : ℕ) : Option (ℕ × ℕ × ℕ) :=
  if i < padding ∨ j < padding then none
  else
    let y := (i - padding) / (h + padding)
    let r := (i - padding) % (h + padding)
    let x := (j - padding) / (w + padding)
    let c := (j - padding) % (w + padding)
    if r < h ∧ c < w ∧ x < xmaps ∧ y * xmaps + x < n then some (y * xmaps + x, r, c)
    else none

/-- The `colormaps` table of draw_grid.py lines 6-20, with the numeric values
of the corresponding OpenCV colormap constants. -/
def colormaps : List (String × Option ℕ) :=
  [("Default", none), ("Parula", some 12), ("Autumn", some 0), ("Bone", some 1),
   ("Jet", some 2), ("Rainbow", some 4), ("Ocean", some 5), ("Summer", some 6),
   ("Spring", some 7), ("Cool", some 8), ("HSV", some 9), ("Pink", some 10),
   ("Hot", some 11)]

/-- Python dictionary lookup `colormaps[cmap]`; `none` models `KeyError`. -/
def lookupCmap (s : String) : Option (Option ℕ) := colormaps.lookup s

/-- The tiled, normalized, 255-scaled, uint8-cast RGB image produced by
`make_grid(normalize=True, padding=margins, pad_value=background)` followed by
`(im_grid * 255.).permute(1, 2, 0).numpy().astype('uint8')` (draw_grid.py
lines 90-91), in exact integer arithmetic.  Cell pixels show the min-max
normalized voxel scaled to 0..255; margin pixels show the raw fill value
scaled by 255 and cast.  The single channel is replicated to three
(`make_grid` concatenates a 1-channel input to 3 channels). -/
def tileImg (u : Vol) (xm ym m : ℕ) (lo hi bg : ℤ) : Img :=
  ⟨gridH u.h m ym, gridW u.w m xm, fun i j =>
    match tileSlot u.d u.h u.w xm m i j with
    | some krc =>
      let p := toU8 (normScale lo hi (u.pix krc.1 krc.2.1 krc.2.2))
      (p, p, p)
    | none =>
      let p := toU8 (255 * bg)
      (p, p, p)⟩

/-- The uint8 mask grid produced by
`make_grid(seg, normalize=False, padding=margins, pad_value=background)`
followed by `seg_grid[0].numpy().astype('uint8')` (draw_grid.py lines
164-165): cell pixels show the (already uint8) mask voxels, margin pixels the
fill value cast to uint8 (`new_full` on a uint8 tensor). -/
def tileGrid (s : Vol) (xm ym m : ℕ) (bg : ℤ) : GridOut :=
  ⟨gridH s.h m ym, gridW s.w m xm, fun i j =>
    match tileSlot s.d s.h s.w xm m i j with
    | some krc => s.pix krc.1 krc.2.1 krc.2.2
    | none => (toU8 bg : ℤ)⟩

/-- Model of `cv2.applyColorMap(im_grid[:, :, 0], colormaps[cmap])`
(draw_grid.py line 94): each pixel's first channel is mapped through the
selected lookup table. -/
def applyCmapImg (lut : ℕ → ℕ → Rgb) (cid : ℕ) (im : Img) : Img :=
  ⟨im.H, im.W, fun i j => lut cid (im.pix i j).1⟩

/-- Everything `draw_grid` does after the offset step (draw_grid.py lines
64-97): insert the channel axis, compute `nrow` when absent, crop, tile via
`make_grid(normalize=True, padding=margins, pad_value=background)`, scale to
uint8, and optionally apply a colormap.  `lut` is the external
`cv2.applyColorMap` lookup table family (colormap id and uint8 intensity to
RGB).  `make_grid` raises `ZeroDivisionError` when `min(nrow, nmaps) = 0`. -/
def drawGridCore (lut : ℕ → ℕ → Rgb) (u0 : Vol) (crop : Option CropSpec)
    (nrow : Option ℕ) (background : ℤ) (margins : ℕ) (cmap : Option String) :
    Except PyExc Img :=
  let nr := effNrow nrow u0.d
  let u := cropStep crop u0
  let xm := gridXmaps nr u.d
  if xm = 0 then .error .zeroDivisionError
  else
    let base := tileImg u xm (gridYmaps u.d xm) margins (volMin u) (volMax u) background
    match cmap with
    | none => .ok base
    | some name =>
      if name = "Default" then .ok base
      else
        match lookupCmap name with
        | none => .error .keyError
        | some none => .error .typeError
        | some (some cid) => .ok (applyCmapImg lut cid base)

/-- Model of `draw_grid` (draw_grid.py lines 22-97): offset assertion, numeric
conversion (a no-op on the exact model), offset padding, then the core
pipeline. -/
def draw_grid (lut : ℕ → ℕ → Rgb) (image : Vol) (crop : Option CropSpec)
    (nrow : Option ℕ) (offset : Option ℤ) (background : ℤ) (margins : ℕ)
    (cmap : Option String) : Except PyExc Img :=
  (offsetAssert offset).bind fun _ =>
    (offsetStep offset image).bind fun im =>
      drawGridCore lut im crop nrow background margins cmap

/-- Model of `color.color().getRgb()[:3]` (draw_grid.py line 173): a malformed
color argument (e.g. `None`, which has no `color` attribute) raises
`AttributeError`; a well-formed Qt brush yields its RGB triple. -/
def qcolor_rgb (color : Option Rgb) : Except PyExc Rgb :=
  match color with
  | none => .error .attributeError
  | some c => .ok c

/-- All grid positions of an `H × W` image. -/
def gridPts (H W : ℕ) : List (ℕ × ℕ) :=
  (List.range (H * W)).map fun t => (t / W, t % W)

/-- Whether grid pixel `(i, j)` lies on the boundary of the foreground
(non-zero) region: it is foreground and touches the image border or a zero
4-neighbour. -/
def isBoundary (g : GridOut) (i j : ℕ) : Bool :=
  decide (g.pix i j ≠ 0) &&
    (decide (i = 0) || decide (j = 0) || decide (i + 1 = g.H) || decide (j + 1 = g.W) ||
     decide (g.pix (i - 1) j = 0) || decide (g.pix (i + 1) j = 0) ||
     decide (g.pix i (j - 1) = 0) || decide (g.pix i (j + 1) = 0))

/-- Model of successful `cv2.findContours(mode=RETR_EXTERNAL)` (draw_grid.py
lines 168-169): the pixels on the boundaries of the connected non-zero
regions.  In particular the result is empty exactly when the grid has no
non-zero pixel. -/
def cv2_findContours (g : GridOut) : List (ℕ × ℕ) :=
  (gridPts g.H g.W).filter fun p => isBoundary g p.1 p.2

/-- The nominal (non-raising) behaviour of the external contour extractor. -/
def cv2FindContoursOk : GridOut → Except PyExc (List (ℕ × ℕ)) :=
  fun g => .ok (cv2_findContours g)

/-- Model of `cv2.drawContours(im_grid, contours, -1, rgb, thickness)`
(draw_grid.py line 173): every contour pixel is painted in the given color (a
stroke of thickness ≥ 1 covers at least the contour pixels themselves). -/
def drawContoursArr (im : Img) (pts : List (ℕ × ℕ)) (rgb : Rgb) : Img :=
  ⟨im.H, im.W, fun i j => if (i, j) ∈ pts then rgb else im.pix i j⟩

/-- Everything `draw_grid_contour` does after the offset step (draw_grid.py
lines 138-176): channel axis, `nrow`, crop, tiling of the mask via
`make_grid(normalize=False, pad_value=background)` into a uint8 grid, contour
extraction (outside any `try`), then contour drawing inside `try/except`: a
failure while evaluating the color argument or drawing is swallowed and the
incoming grid image is returned unmodified. -/
def contourCore (findC : GridOut → Except PyExc (List (ℕ × ℕ))) (im_grid : Img)
    (s0 : Vol) (crop : Option CropSpec) (nrow : Option ℕ) (background : ℤ)
    (margins : ℕ) (color : Option Rgb) : Except PyExc Img :=
  let nr := effNrow nrow s0.d
  let s := cropStep crop s0
  let xm := gridXmaps nr s.d
  if xm = 0 then .error .zeroDivisionError
  else
    let seg_grid := tileGrid s xm (gridYmaps s.d xm) margins background
    (findC seg_grid).bind fun contours =>
      match qcolor_rgb color with
      | .error _ => .ok im_grid
      | .ok rgb => .ok (drawContoursArr im_grid contours rgb)

/-- Model of `draw_grid_contour` (draw_grid.py lines 99-176): offset
assertion, uint8 cast of the mask, offset padding, then the core with the
contour extractor `findC` as the external `cv2.findContours` call. -/
def draw_grid_contour (findC : GridOut → Except PyExc (List (ℕ × ℕ)))
    (im_grid : Img) (seg : Vol) (crop : Option CropSpec) (nrow : Option ℕ)
    (offset : Option ℤ) (background : ℤ) (margins : ℕ) (color : Option Rgb) :
    Except PyExc Img :=
  (offsetAssert offset).bind fun _ =>
    (offsetStep offset (castU8Vol seg)).bind fun s =>
      contourCore findC im_grid s crop nrow background margins color

/-- A volume with `k` zero-filled slices prepended along the depth axis (the
construction named by the spec's offset-equivalence property). -/
def prependZeros (k : ℕ) (v : Vol) : Vol :=
  ⟨k + v.d, v.h, v.w, fun i r c => if i < k then 0 else v.pix (i - k) r c⟩

/-- The `'target_im'` entry of the wrapper configuration: absent, a valid
volume, or an invalid object whose first attribute access raises
`AttributeError`. -/
inductive TargetVal
  | valid (v : Vol)
  | invalid

/-- The drawing-thread configuration dictionary consumed by
`draw_grid_wrapper.run`. -/
structure WrapperConfig where
  target_im : Option TargetVal
  segment : Option (List Vol)
  segment_color : Option (List (Option Rgb))
  crop : Option CropSpec
  nrow : Option ℕ
  offset : Option ℤ
  background : ℤ
  margins : ℕ
  cmap : Option String

/-- Externally visible outcome of one `draw_grid_wrapper.run` invocation:
result stored, a status message emitted via `display_msg`, or an exception
escaping `run`. -/
inductive RunOutcome
  | ok (im : Img)
  | displayedMsg (s : String)
  | uncaught (e : PyExc)

/-- Model of `draw_grid_wrapper.run` (draw_grid_wrapper.py lines 19-31).
`self._config.pop('target_im')` raises `KeyError` when the key is absent; the
`except` clause catches only `AttributeError`, so any other exception escapes
`run`.  An invalid target object first passes the offset assertion inside
`draw_grid` and then raises `AttributeError` at its first attribute access
(`squeeze`/`astype`), which the wrapper catches and reports as the generic
"Wrong drawing configuration" message. -/
def draw_grid_wrapper_run (lut : ℕ → ℕ → Rgb)
    (findC : GridOut → Except PyExc (List (ℕ × ℕ))) (cfg : WrapperConfig) :
    RunOutcome :=
  match cfg.target_im with
  | none => .uncaught .keyError
  | some .invalid =>
    match offsetAssert cfg.offset with
    | .error e => .uncaught e
    | .ok _ => .displayedMsg "Wrong drawing configuration"
  | some (.valid v) =>
    let r : Except PyExc Img :=
      (draw_grid lut v cfg.crop cfg.nrow cfg.offset cfg.background cfg.margins
          cfg.cmap).bind fun base =>
        match cfg.segment, cfg.segment_color with
        | some segs, some cols =>
          (segs.zip cols).foldlM (fun im sc =>
            draw_grid_contour findC im sc.1 cfg.crop cfg.nrow cfg.offset
              cfg.background cfg.margins sc.2) base
        | _, _ => .ok base
    match r with
    | .ok im => .ok im
    | .error .attributeError => .displayedMsg "Wrong drawing configuration"
    | .error e => .uncaught e

/-- Model of `ngv_io_reader_wrapper.__getitem__` (ngv_io_wrapper.py lines
41-43): with no configured reader the guarded body is skipped and the method
returns Python `None`; otherwise it returns the reader's keyed lookup result
unchanged. -/
def ngv_getitem {α : Type} (reader : Option (String → α)) (item : String) :
    Option α :=
  match reader with
  | none => none
  | some r => some (r item)

/-- Observable equality of volumes: same shape and same in-range voxels. -/
def Vol.Eq (a b : Vol) : Prop :=
  a.d = b.d ∧ a.h = b.h ∧ a.w = b.w ∧
    ∀ i < b.d, ∀ r < b.h, ∀ c < b.w, a.pix i r c = b.pix i r c

/-- A volume whose in-range voxels are all zero. -/
def Vol.AllZero (v : Vol) : Prop :=
  ∀ i < v.d, ∀ r < v.h, ∀ c < v.w, v.pix i r c = 0

/-- Observable equality of images: same shape and same in-range pixels. -/
def Img.Eq (a b : Img) : Prop :=
  a.H = b.H ∧ a.W = b.W ∧ ∀ i < b.H, ∀ j < b.W, a.pix i j = b.pix i j

/-- Observable equality of single-channel grids. -/
def GridOut.Eq (a b : GridOut) : Prop :=
  a.H = b.H ∧ a.W = b.W ∧ ∀ i < b.H, ∀ j < b.W, a.pix i j = b.pix i j

/-- Lift a relation on results to fallible computations: both fail with the
same exception, or both succeed with related results. -/
def exceptRel {α : Type} (R : α → α → Prop) :
    Except PyExc α → Except PyExc α → Prop
  | .ok a, .ok b => R a b
  | .error e, .error f => e = f
  | .ok _, .error _ => False
  | .error _, .ok _ => False

instance (a b : Vol) : Decidable (Vol.Eq a b) := by
  unfold Vol.Eq; infer_instance

instance (v : Vol) : Decidable (Vol.AllZero v) := by
  unfold Vol.AllZero; infer_instance

instance (a b : Img) : Decidable (Img.Eq a b) := by
  unfold Img.Eq; infer_instance

instance (a b : GridOut) : Decidable (GridOut.Eq a b) := by
  unfold GridOut.Eq; infer_instance

instance {α : Type} (R : α → α → Prop) [DecidableRel R] :
    (x y : Except PyExc α) → Decidable (exceptRel R x y)
  | .ok a, .ok b => inferInstanceAs (Decidable (R a b))
  | .error e, .error f => inferInstanceAs (Decidable (e = f))
  | .ok _, .error _ => inferInstanceAs (Decidable False)
  | .error _, .ok _ => inferInstanceAs (Decidable False)

instance : DecidableRel Img.Eq := fun a b => inferInstance

instance : DecidableRel GridOut.Eq := fun a b => inferInstance

/-- Pixel of a successful result (a sentinel outside the uint8 range when the
computation failed). -/
def okPix (r : Except PyExc Img) (i j : ℕ) : Rgb :=
  match r with
  | .ok g => g.pix i j
  | .error _ => (999, 999, 999)

/-- Width of a successful result (0 when the computation failed). -/
def okW (r : Except PyExc Img) : ℕ :=
  match r with
  | .ok g => g.W
  | .error _ => 0

/-- Whether the computation succeeded. -/
def okSucceeds (r : Except PyExc Img) : Bool :=
  match r with
  | .ok _ => true
  | .error _ => false

/-- A trivial colormap lookup table, used to instantiate the external-table
parameter in concrete evaluations. -/
def lutTriv : ℕ → ℕ → Rgb := fun _ v => (v, v, v)

/-- A 2x2x2 volume of constant value 5. -/
def vol5 : Vol := ⟨2, 2, 2, fun _ _ _ => 5⟩

/-- A 1x2x2 volume (singleton depth axis) of constant value 5. -/
def vol1 : Vol := ⟨1, 2, 2, fun _ _ _ => 5⟩

/-- A 2x2x2 volume with voxel value `4i + 2r + c` (minimum 0, maximum 7). -/
def volRamp : Vol := ⟨2, 2, 2, fun i r c => (i * 4 + r * 2 + c : ℤ)⟩

/-- A 4x10x10 constant volume (the spec's tiling scenario). -/
def volScen : Vol := ⟨4, 10, 10, fun _ _ _ => 3⟩

/-- A 2x3x3 constant volume. -/
def segW : Vol := ⟨2, 3, 3, fun _ _ _ => 1⟩

/-- A 5x5 all-black base image. -/
def base0 : Img := ⟨5, 5, fun _ _ => (0, 0, 0)⟩

/-- A 3x3 base image of constant pixel (9, 9, 9). -/
def base9 : Img := ⟨3, 3, fun _ _ => (9, 9, 9)⟩

/-- A 2x2x2 all-zero mask volume. -/
def segZ : Vol := ⟨2, 2, 2, fun _ _ _ => 0⟩

/-- The crop request of the C1 failing input: center (2, 2), size (10, 10). -/
def cropC1 : CropSpec := ⟨2, 2, 10, 10⟩

/-- The volume of the C1 failing input: depth 2, first spatial extent 5,
second spatial extent 3. -/
def volC1 : Vol := ⟨2, 5, 3, fun _ _ _ => 1⟩

/-- A wrapper configuration whose `'target_im'` entry is absent. -/
def cfgMissing : WrapperConfig :=
  ⟨none, none, none, none, none, some 0, 0, 1, none⟩

/-- A wrapper configuration whose `'target_im'` entry is an invalid object. -/
def cfgInvalid : WrapperConfig :=
  ⟨some .invalid, none, none, none, none, some 0, 0, 1, none⟩

/-- Two witness volumes that are pointwise equal on their common shape but
built from different functions. -/
def volW1 : Vol := ⟨2, 2, 2, fun _ _ _ => 1⟩

/-- Companion of `volW1`: the same observable volume defined differently. -/
def volW2 : Vol := ⟨2, 2, 2, fun i _ _ => if i < 5 then 1 else 0⟩

end NGV

namespace NGV

/-! ### Basic arithmetic lemmas -/

theorem toU8_lt (z : ℤ) : toU8 z < 256 := by
  unfold toU8
  omega

theorem cropStep_d (cr : Option CropSpec) (v : Vol) : (cropStep cr v).d = v.d := by
  cases cr <;> rfl

theorem cropStep_none (v : Vol) : cropStep none v = v := rfl

theorem pyIdx_le (x : ℤ) (len : ℕ) : pyIdx x len ≤ len := by
  unfold pyIdx
  split <;> omega

theorem ceilSqrt_spec (n : ℕ) (hn : 1 ≤ n) :
    1 ≤ ceilSqrt n ∧ ceilSqrt n ≤ n := by
  have hmem : ∃ r ∈ List.range (n + 1), (fun r => decide (n ≤ r * r)) r = true := by
    refine ⟨n, List.mem_range.mpr (Nat.lt_succ_self n), ?_⟩
    simpa using Nat.le_mul_of_pos_left n hn
  have hsome : (((List.range (n + 1)).find? fun r => decide (n ≤ r * r))).isSome := by
    rw [List.find?_isSome]
    exact hmem
  obtain ⟨r, hr⟩ := Option.isSome_iff_exists.mp hsome
  have hmemr := List.mem_of_find?_eq_some hr
  have hpr := List.find?_some hr
  have hrn : r ≤ n := Nat.lt_succ_iff.mp (List.mem_range.mp hmemr)
  have hler : n ≤ r * r := of_decide_eq_true hpr
  have hr1 : 1 ≤ r := by
    rcases Nat.eq_zero_or_pos r with h0 | h1
    · subst h0; omega
    · exact h1
  unfold ceilSqrt
  rw [hr]
  exact ⟨hr1, hrn⟩

/-! ### Congruence of the pipeline in the observable volume content -/

theorem volVals_congr {a b : Vol} (h : Vol.Eq a b) : volVals a = volVals b := by
  obtain ⟨hd, hh, hw, hpix⟩ := h
  unfold volVals
  rw [hd, hh, hw]
  apply List.map_congr_left
  intro t ht
  rw [List.mem_range] at ht
  have hpos : 0 < b.d * b.h * b.w := lt_of_le_of_lt (Nat.zero_le t) ht
  have hwpos : 0 < b.w := by
    rcases Nat.eq_zero_or_pos b.w with h0 | h1
    · rw [h0] at hpos; simp at hpos
    · exact h1
  have hhw : 0 < b.h * b.w := by
    rcases Nat.eq_zero_or_pos (b.h * b.w) with h0 | h1
    · rw [mul_assoc, h0] at hpos; simp at hpos
    · exact h1
  have h1 : t / (b.h * b.w) < b.d := by
    rw [Nat.div_lt_iff_lt_mul hhw]
    calc t < b.d * b.h * b.w := ht
    _ = b.d * (b.h * b.w) := by ring
  have h2 : t % (b.h * b.w) / b.w < b.h := by
    rw [Nat.div_lt_iff_lt_mul hwpos]
    calc t % (b.h * b.w) < b.h * b.w := Nat.mod_lt _ hhw
    _ = b.h * b.w := rfl
  have h3 : t % (b.h * b.w) % b.w < b.w := Nat.mod_lt _ hwpos
  exact hpix _ h1 _ h2 _ h3

theorem volMin_congr {a b : Vol} (h : Vol.Eq a b) : volMin a = volMin b := by
  unfold volMin
  rw [volVals_congr h]

theorem volMax_congr {a b : Vol} (h : Vol.Eq a b) : volMax a = volMax b := by
  unfold volMax
  rw [volVals_congr h]

theorem cropStep_congr (cr : Option CropSpec) {a b : Vol} (h : Vol.Eq a b) :
    Vol.Eq (cropStep cr a) (cropStep cr b) := by
  obtain ⟨hd, hh, hw, hpix⟩ := h
  cases cr with
  | none => exact ⟨hd, hh, hw, hpix⟩
  | some c0 =>
    refine ⟨hd, by simp only [cropStep, hh], by simp only [cropStep, hh, hw], ?_⟩
    intro i hi r hr c hc
    simp only [cropStep] at hi hr hc ⊢
    rw [hh, hw]
    apply hpix
    · exact hi
    · have := pyIdx_le (min (crop_lower c0.center1 c0.size1 + c0.size1) 1) b.h
      omega
    · have := pyIdx_le (min (crop_lower c0.center2 c0.size2 + c0.size2) (b.h : ℤ)) b.w
      omega

theorem tileSlot_some {n h w xm p i j : ℕ} {k r c : ℕ}
    (ht : tileSlot n h w xm p i j = some (k, r, c)) : k < n ∧ r < h ∧ c < w := by
  simp only [tileSlot] at ht
  split at ht
  · exact absurd ht (by simp)
  · split at ht
    · rename_i hg
      rw [Option.some.injEq, Prod.ext_iff, Prod.ext_iff] at ht
      obtain ⟨h1, h2, h3⟩ := ht
      simp only at h1 h2 h3
      subst h1
      subst h2
      subst h3
      exact ⟨hg.2.2.2, hg.1, hg.2.1⟩
    · exact absurd ht (by simp)

theorem imgEq_refl (x : Img) : Img.Eq x x := ⟨rfl, rfl, fun _ _ _ _ => rfl⟩

theorem tileImg_pix_congr {a b : Vol} (h : Vol.Eq a b) (xm ym m : ℕ)
    (lo hi bg : ℤ) (i j : ℕ) :
    (tileImg a xm ym m lo hi bg).pix i j = (tileImg b xm ym m lo hi bg).pix i j := by
  obtain ⟨hd, hh, hw, hpix⟩ := h
  simp only [tileImg, hd, hh, hw]
  rcases htile : tileSlot b.d b.h b.w xm m i j with _ | ⟨k, r, c⟩
  · rfl
  · obtain ⟨hk, hr, hc⟩ := tileSlot_some htile
    simp only [hpix k hk r hr c hc]

theorem tileImg_congr {a b : Vol} (h : Vol.Eq a b) (xm ym m : ℕ)
    (lo hi bg : ℤ) :
    Img.Eq (tileImg a xm ym m lo hi bg) (tileImg b xm ym m lo hi bg) :=
  ⟨by simp [tileImg, h.2.1], by simp [tileImg, h.2.2.1],
   fun i _ j _ => tileImg_pix_congr h xm ym m lo hi bg i j⟩

theorem applyCmapImg_congr (lut : ℕ → ℕ → Rgb) (cid : ℕ) {x y : Img}
    (h : Img.Eq x y) :
    Img.Eq (applyCmapImg lut cid x) (applyCmapImg lut cid y) := by
  obtain ⟨hH, hW, hpix⟩ := h
  exact ⟨by simp [applyCmapImg, hH], by simp [applyCmapImg, hW],
    fun i hi j hj => by simp only [applyCmapImg]; rw [hpix i hi j hj]⟩

theorem tileGrid_pix_congr {a b : Vol} (h : Vol.Eq a b) (xm ym m : ℕ)
    (bg : ℤ) (i j : ℕ) :
    (tileGrid a xm ym m bg).pix i j = (tileGrid b xm ym m bg).pix i j := by
  obtain ⟨hd, hh, hw, hpix⟩ := h
  simp only [tileGrid, hd, hh, hw]
  rcases htile : tileSlot b.d b.h b.w xm m i j with _ | ⟨k, r, c⟩
  · rfl
  · obtain ⟨hk, hr, hc⟩ := tileSlot_some htile
    simp only [hpix k hk r hr c hc]

theorem cv2_findContours_congr {g₁ g₂ : GridOut} (hH : g₁.H = g₂.H)
    (hW : g₁.W = g₂.W) (hpix : ∀ i j, g₁.pix i j = g₂.pix i j) :
    cv2_findContours g₁ = cv2_findContours g₂ := by
  unfold cv2_findContours
  rw [hH, hW]
  apply List.filter_congr
  intro p _
  simp only [isBoundary, hpix, hH, hW]

theorem tileGrid_contours_congr {a b : Vol} (h : Vol.Eq a b) (xm ym m : ℕ)
    (bg : ℤ) :
    cv2_findContours (tileGrid a xm ym m bg) =
      cv2_findContours (tileGrid b xm ym m bg) :=
  cv2_findContours_congr (by simp [tileGrid, h.2.1]) (by simp [tileGrid, h.2.2.1])
    (tileGrid_pix_congr h xm ym m bg)

theorem drawGridCore_congr (lut : ℕ → ℕ → Rgb) (crop : Option CropSpec)
    (nrow : Option ℕ) (bg : ℤ) (m : ℕ) (cmap : Option String) {a b : Vol}
    (h : Vol.Eq a b) :
    exceptRel Img.Eq (drawGridCore lut a crop nrow bg m cmap)
      (drawGridCore lut b crop nrow bg m cmap) := by
  have hc := cropStep_congr crop h
  have hmin := volMin_congr hc
  have hmax := volMax_congr hc
  have hd0 : a.d = b.d := h.1
  have hd := hc.1
  have hh := hc.2.1
  have hw := hc.2.2.1
  simp only [drawGridCore, hd0, hd, hh, hw, hmin, hmax]
  by_cases h0 : gridXmaps (effNrow nrow b.d) (cropStep crop b).d = 0
  · simp only [if_pos h0]
    rfl
  · simp only [if_neg h0]
    have hbase := tileImg_congr hc
      (gridXmaps (effNrow nrow b.d) (cropStep crop b).d)
      (gridYmaps (cropStep crop b).d (gridXmaps (effNrow nrow b.d) (cropStep crop b).d))
      m (volMin (cropStep crop b)) (volMax (cropStep crop b)) bg
    cases cmap with
    | none => exact hbase
    | some name =>
      by_cases hdef : name = "Default"
      · simp only [if_pos hdef]
        exact hbase
      · simp only [if_neg hdef]
        rcases hlk : lookupCmap name with _ | cid0
        · rfl
        · cases cid0 with
          | none => rfl
          | some cid => exact applyCmapImg_congr lut cid hbase

theorem drawContoursArr_congr {b₁ b₂ : Img} (hb : Img.Eq b₁ b₂)
    (pts : List (ℕ × ℕ)) (rgb : Rgb) :
    Img.Eq (drawContoursArr b₁ pts rgb) (drawContoursArr b₂ pts rgb) := by
  refine ⟨by simp [drawContoursArr, hb.1], by simp [drawContoursArr, hb.2.1],
    fun i hi j hj => ?_⟩
  simp only [drawContoursArr]
  split
  · rfl
  · exact hb.2.2 i hi j hj

theorem contourCore_congr (crop : Option CropSpec) (nrow : Option ℕ) (bg : ℤ)
    (m : ℕ) (color : Option Rgb) {b₁ b₂ : Img} {s₁ s₂ : Vol}
    (hb : Img.Eq b₁ b₂) (hs : Vol.Eq s₁ s₂) :
    exceptRel Img.Eq (contourCore cv2FindContoursOk b₁ s₁ crop nrow bg m color)
      (contourCore cv2FindContoursOk b₂ s₂ crop nrow bg m color) := by
  have hc := cropStep_congr crop hs
  have hd0 : s₁.d = s₂.d := hs.1
  have hd := hc.1
  have hh := hc.2.1
  have hw := hc.2.2.1
  simp only [contourCore, hd0, hd, hh, hw]
  by_cases h0 : gridXmaps (effNrow nrow s₂.d) (cropStep crop s₂).d = 0
  · simp only [if_pos h0]
    rfl
  · simp only [if_neg h0]
    simp only [cv2FindContoursOk, tileGrid_contours_congr hc, Except.bind]
    cases color with
    | none => exact hb
    | some rgb => exact drawContoursArr_congr hb _ rgb

/-! ### Reduction of the full functions to their cores -/

theorem draw_grid_step (lut : ℕ → ℕ → Rgb) (crop : Option CropSpec)
    (nrow : Option ℕ) (bg : ℤ) (m : ℕ) (cmap : Option String) (v : Vol) (k : ℕ)
    (h1 : v.d ≠ 1) (h2 : v.h ≠ 1) (h3 : v.w ≠ 1) :
    draw_grid lut v crop nrow (some (k : ℤ)) bg m cmap =
      drawGridCore lut
        ⟨v.d + k, v.h, v.w, fun i r c => if i < k then 0 else v.pix (i - k) r c⟩
        crop nrow bg m cmap := by
  simp only [draw_grid, offsetAssert, offsetStep]
  rw [if_pos (Int.natCast_nonneg k)]
  simp only [Except.bind]
  rw [if_neg (show ¬(v.d = 1 ∨ v.h = 1 ∨ v.w = 1) by simp [h1, h2, h3])]
  simp only [Except.bind, Int.toNat_natCast]

theorem draw_grid_contour_step (findC : GridOut → Except PyExc (List (ℕ × ℕ)))
    (base : Img) (crop : Option CropSpec) (nrow : Option ℕ) (bg : ℤ) (m : ℕ)
    (color : Option Rgb) (seg : Vol) (k : ℕ)
    (h1 : seg.d ≠ 1) (h2 : seg.h ≠ 1) (h3 : seg.w ≠ 1) :
    draw_grid_contour findC base seg crop nrow (some (k : ℤ)) bg m color =
      contourCore findC base
        ⟨seg.d + k, seg.h, seg.w,
          fun i r c => if i < k then 0 else (toU8 (seg.pix (i - k) r c) : ℤ)⟩
        crop nrow bg m color := by
  simp only [draw_grid_contour, offsetAssert, offsetStep, castU8Vol]
  rw [if_pos (Int.natCast_nonneg k)]
  simp only [Except.bind]
  rw [if_neg (show ¬(seg.d = 1 ∨ seg.h = 1 ∨ seg.w = 1) by simp [h1, h2, h3])]
  simp only [Except.bind, Int.toNat_natCast]

theorem castU8Vol_congr {a b : Vol} (h : Vol.Eq a b) :
    Vol.Eq (castU8Vol a) (castU8Vol b) := by
  refine ⟨h.1, h.2.1, h.2.2.1, ?_⟩
  intro i hi r hr c hc
  simp only [castU8Vol] at hi hr hc ⊢
  rw [h.2.2.2 i hi r hr c hc]

theorem draw_grid_full_congr (lut : ℕ → ℕ → Rgb) (crop : Option CropSpec)
    (nrow : Option ℕ) (off : Option ℤ) (bg : ℤ) (m : ℕ) (cmap : Option String)
    {a b : Vol} (h : Vol.Eq a b) :
    exceptRel Img.Eq (draw_grid lut a crop nrow off bg m cmap)
      (draw_grid lut b crop nrow off bg m cmap) := by
  cases off with
  | none => rfl
  | some k =>
    simp only [draw_grid, offsetAssert, offsetStep]
    by_cases hk : 0 ≤ k
    · rw [if_pos hk]
      simp only [Except.bind, h.1, h.2.1, h.2.2.1]
      by_cases hg : b.d = 1 ∨ b.h = 1 ∨ b.w = 1
      · rw [if_pos hg, if_pos hg]
        rfl
      · rw [if_neg hg, if_neg hg]
        apply drawGridCore_congr
        refine ⟨rfl, rfl, rfl, ?_⟩
        intro i hi r hr c hc
        simp only at hi hr hc ⊢
        split
        · rfl
        · exact h.2.2.2 _ (by omega) _ hr _ hc
    · rw [if_neg hk]
      rfl

theorem draw_grid_contour_full_congr (crop : Option CropSpec) (nrow : Option ℕ)
    (off : Option ℤ) (bg : ℤ) (m : ℕ) (color : Option Rgb)
    {b₁ b₂ : Img} {s₁ s₂ : Vol} (hb : Img.Eq b₁ b₂) (hs : Vol.Eq s₁ s₂) :
    exceptRel Img.Eq (draw_grid_contour cv2FindContoursOk b₁ s₁ crop nrow off bg m color)
      (draw_grid_contour cv2FindContoursOk b₂ s₂ crop nrow off bg m color) := by
  have hcast := castU8Vol_congr hs
  cases off with
  | none => rfl
  | some k =>
    simp only [draw_grid_contour, offsetAssert, offsetStep]
    by_cases hk : 0 ≤ k
    · rw [if_pos hk]
      simp only [Except.bind, castU8Vol, hs.1, hs.2.1, hs.2.2.1]
      by_cases hg : s₂.d = 1 ∨ s₂.h = 1 ∨ s₂.w = 1
      · rw [if_pos hg, if_pos hg]
        rfl
      · rw [if_neg hg, if_neg hg]
        apply contourCore_congr _ _ _ _ _ hb
        refine ⟨rfl, rfl, rfl, ?_⟩
        intro i hi r hr c hc
        simp only at hi hr hc ⊢
        split
        · rfl
        · rw [hs.2.2.2 _ (by omega) _ hr _ hc]
    · rw [if_neg hk]
      rfl

/-! ### Tiling coordinates and normalization values -/

theorem tileSlot_at (n h w xm p a b r c : ℕ) (hr : r < h) (hc : c < w)
    (hx : b < xm) (hk : a * xm + b < n) :
    tileSlot n h w xm p (p + a * (h + p) + r) (p + b * (w + p) + c) =
      some (a * xm + b, r, c) := by
  have hnl : ¬(p + a * (h + p) + r < p ∨ p + b * (w + p) + c < p) := by omega
  have hp0 : 0 < h + p := by omega
  have hq0 : 0 < w + p := by omega
  have e1 : p + a * (h + p) + r - p = a * (h + p) + r := by omega
  have e2 : p + b * (w + p) + c - p = b * (w + p) + c := by omega
  have d1 : (a * (h + p) + r) / (h + p) = a := by
    rw [mul_comm a (h + p), Nat.mul_add_div hp0, Nat.div_eq_of_lt (by omega),
      Nat.add_zero]
  have m1 : (a * (h + p) + r) % (h + p) = r := by
    rw [mul_comm a (h + p), Nat.mul_add_mod]
    exact Nat.mod_eq_of_lt (by omega)
  have d2 : (b * (w + p) + c) / (w + p) = b := by
    rw [mul_comm b (w + p), Nat.mul_add_div hq0, Nat.div_eq_of_lt (by omega),
      Nat.add_zero]
  have m2 : (b * (w + p) + c) % (w + p) = c := by
    rw [mul_comm b (w + p), Nat.mul_add_mod]
    exact Nat.mod_eq_of_lt (by omega)
  simp only [tileSlot]
  rw [if_neg hnl, e1, e2, d1, m1, d2, m2, if_pos ⟨hr, hc, hx, hk⟩]

theorem normScale_min (lo hi : ℤ) : normScale lo hi lo = 0 := by
  unfold normScale
  split
  · rfl
  · simp [Int.zero_fdiv]

theorem normScale_max (lo hi : ℤ) (hne : hi ≠ lo) : normScale lo hi hi = 255 := by
  unfold normScale
  rw [if_neg hne, Int.mul_fdiv_cancel _ (sub_ne_zero_of_ne hne)]

/-! ### All-zero mask preservation -/

theorem allZero_cast {v : Vol} (h : Vol.AllZero v) : Vol.AllZero (castU8Vol v) := by
  intro i hi r hr c hc
  simp only [castU8Vol] at hi hr hc ⊢
  rw [h i hi r hr c hc]
  decide

theorem allZero_offset {v : Vol} (k : ℕ) (h : Vol.AllZero v) :
    Vol.AllZero ⟨v.d + k, v.h, v.w, fun i r c => if i < k then 0 else v.pix (i - k) r c⟩ := by
  intro i hi r hr c hc
  simp only at hi hr hc ⊢
  split
  · rfl
  · exact h _ (by omega) _ hr _ hc

theorem allZero_crop (cr : Option CropSpec) {v : Vol} (h : Vol.AllZero v) :
    Vol.AllZero (cropStep cr v) := by
  cases cr with
  | none => exact h
  | some c0 =>
    intro i hi r hr c hc
    simp only [cropStep] at hi hr hc ⊢
    apply h
    · exact hi
    · have := pyIdx_le (min (crop_lower c0.center1 c0.size1 + c0.size1) 1) v.h
      omega
    · have := pyIdx_le (min (crop_lower c0.center2 c0.size2 + c0.size2) (v.h : ℤ)) v.w
      omega

theorem tileGrid_allZero {s : Vol} (h : Vol.AllZero s) (xm ym m : ℕ) :
    ∀ i j, (tileGrid s xm ym m 0).pix i j = 0 := by
  intro i j
  simp only [tileGrid]
  rcases htile : tileSlot s.d s.h s.w xm m i j with _ | ⟨k, r, c⟩
  · rfl
  · obtain ⟨hk, hr, hc⟩ := tileSlot_some htile
    exact h k hk r hr c hc

theorem findContours_nil {g : GridOut} (h : ∀ i j, g.pix i j = 0) :
    cv2_findContours g = [] := by
  unfold cv2_findContours
  rw [List.filter_eq_nil_iff]
  intro p _
  simp [isBoundary, h]

/-! ### Claim theorems -/

/-- C1: evaluation of the crop step at a failing input (volume with depth 2,
first spatial extent 5, second spatial extent 3; crop center (2, 2), size
(10, 10)).  The lower bounds clamp at 0 and the depth axis is untouched as
claimed, but the source zips the upper-bound caps against `im_shape[1:]`:
the computed upper bound for the second spatial axis is `min (0 + 10) 5 = 5`,
exceeding that axis's extent 3, and the first spatial axis is capped at the
channel extent 1 instead of its extent 5, collapsing the cropped first extent
to 1. -/
theorem crop_bounds_use_wrong_extents :
    (∀ c s : ℤ, 0 ≤ crop_lower c s) ∧
    crop_lower 2 10 = 0 ∧
    min (crop_lower 2 10 + 10) (1 : ℤ) = 1 ∧
    min (crop_lower 2 10 + 10) ((volC1.h : ℤ)) = 5 ∧
    ((volC1.w : ℤ) = 3 ∧ (3 : ℤ) < 5) ∧
    (cropStep (some cropC1) volC1).h = 1 ∧
    (cropStep (some cropC1) volC1).w = 3 ∧
    (cropStep (some cropC1) volC1).d = volC1.d :=
  ⟨fun c s => le_max_left 0 _, by decide, by decide, by decide,
   ⟨by decide, by decide⟩, by decide, by decide, by decide⟩

/-- C2 counterexample: when the contour-extraction call raises (it sits
outside the `try` block — e.g. the OpenCV 4 `ValueError` from the 3-tuple
unpacking at draw_grid.py line 168), the exception propagates and the base
image is not returned. -/
theorem contour_extraction_uncaught :
    draw_grid_contour (fun _ => .error .valueError) base0 vol5 none none
      (some 0) 0 1 (some (255, 0, 0)) = .error .valueError ∧
    okSucceeds (draw_grid_contour (fun _ => .error .valueError) base0 vol5 none
      none (some 0) 0 1 (some (255, 0, 0))) = false :=
  ⟨rfl, rfl⟩

/-- C2 amended: a failure raised by the contour-drawing step (the `try` block,
e.g. a malformed color argument) is caught and the base grid image is returned
unmodified, but a failure of the contour-extraction call propagates to the
caller. -/
theorem contour_error_handling :
    (∀ (e : PyExc) (base : Img) (seg : Vol) (crop : Option CropSpec)
        (nrow : Option ℕ) (k : ℕ) (b : ℤ) (m : ℕ) (color : Option Rgb),
      seg.d ≠ 1 → seg.h ≠ 1 → seg.w ≠ 1 →
      gridXmaps (effNrow nrow (seg.d + k)) (seg.d + k) ≠ 0 →
      draw_grid_contour (fun _ => .error e) base seg crop nrow (some k) b m
        color = .error e) ∧
    (∀ (cs : List (ℕ × ℕ)) (base : Img) (seg : Vol) (crop : Option CropSpec)
        (nrow : Option ℕ) (k : ℕ) (b : ℤ) (m : ℕ),
      seg.d ≠ 1 → seg.h ≠ 1 → seg.w ≠ 1 →
      gridXmaps (effNrow nrow (seg.d + k)) (seg.d + k) ≠ 0 →
      draw_grid_contour (fun _ => .ok cs) base seg crop nrow (some k) b m
        none = .ok base) := by
  constructor
  · intro e base seg crop nrow k b m color h1 h2 h3 hxm
    rw [draw_grid_contour_step _ _ _ _ _ _ _ seg k h1 h2 h3]
    simp only [contourCore, cropStep_d]
    rw [if_neg hxm]
    simp only [Except.bind]
  · intro cs base seg crop nrow k b m h1 h2 h3 hxm
    rw [draw_grid_contour_step _ _ _ _ _ _ _ seg k h1 h2 h3]
    simp only [contourCore, cropStep_d]
    rw [if_neg hxm]
    simp only [Except.bind, qcolor_rgb]

/-- C2 amended witness: concrete instances of both halves. -/
theorem contour_error_handling_witness :
    draw_grid_contour (fun _ => .error .typeError) base9 segW none none
      (some 0) 0 1 (some (1, 2, 3)) = .error .typeError ∧
    draw_grid_contour (fun _ => .ok []) base9 segW none none (some 0) 0 1
      none = .ok base9 :=
  ⟨contour_error_handling.1 .typeError base9 segW none none 0 0 1
      (some (1, 2, 3)) (by decide) (by decide) (by decide) (by decide),
   contour_error_handling.2 [] base9 segW none none 0 0 1
      (by decide) (by decide) (by decide) (by decide)⟩

/-- C3: the offset handling evaluated on the failing input.  With the offset
unspecified (`None`), both `draw_grid` and `draw_grid_contour` raise
`TypeError` at `assert offset >= 0 or offset is None` (Python 3 evaluates
`None >= 0` first), contradicting the claim that an unspecified offset does
not fail; a negative offset raises `AssertionError` as claimed; a
non-negative offset 2 prepends exactly two zero-filled depth slices. -/
theorem offset_none_type_error :
    draw_grid lutTriv vol5 none none none 0 1 none = .error .typeError ∧
    draw_grid_contour cv2FindContoursOk base0 vol5 none none none 0 1 none =
      .error .typeError ∧
    draw_grid lutTriv vol5 none none (some (-1)) 0 1 none =
      .error .assertionError ∧
    ((offsetStep (some 2) vol5).map fun u =>
      (u.d, u.pix 0 0 0, u.pix 1 1 1, u.pix 2 0 0, u.pix 3 1 1)) =
      .ok (4, 0, 0, 5, 5) :=
  ⟨rfl, rfl, rfl, rfl⟩

/-- C4 counterexample: with an all-zero mask but background fill 1 and margin
1, the mask grid's margin lattice is non-zero, so contours are found and
drawn: pixel (0, 0) of the returned image is the contour color, not the base
image's value. -/
theorem empty_mask_nonzero_background_draws :
    Vol.AllZero segZ ∧
    okPix (draw_grid_contour cv2FindContoursOk base0 segZ none none (some 0)
      1 1 (some (255, 0, 0))) 0 0 = (255, 0, 0) ∧
    base0.pix 0 0 = (0, 0, 0) ∧
    (okPix (draw_grid_contour cv2FindContoursOk base0 segZ none none (some 0)
      1 1 (some (255, 0, 0))) 0 0 == base0.pix 0 0) = false :=
  ⟨by decide, by decide, rfl, by decide⟩

/-- C4 amended: with background fill 0 (the default), a non-negative offset, a
mask with no axis of extent 1 (so the squeeze/pad step succeeds) and a
non-zero column count, compositing an all-zero mask returns the base grid
image pixel-for-pixel unchanged, for every base image, crop, margin and color
argument. -/
theorem empty_mask_returns_base :
    ∀ (base : Img) (seg : Vol) (crop : Option CropSpec) (nrow : Option ℕ)
      (k : ℕ) (m : ℕ) (color : Option Rgb),
      seg.d ≠ 1 → seg.h ≠ 1 → seg.w ≠ 1 →
      gridXmaps (effNrow nrow (seg.d + k)) (seg.d + k) ≠ 0 →
      Vol.AllZero seg →
      exceptRel Img.Eq
        (draw_grid_contour cv2FindContoursOk base seg crop nrow (some k) 0 m
          color) (.ok base) := by
  intro base seg crop nrow k m color h1 h2 h3 hxm hz
  rw [draw_grid_contour_step _ _ _ _ _ _ _ seg k h1 h2 h3]
  have hz2 : Vol.AllZero
      (⟨seg.d + k, seg.h, seg.w,
        fun i r c => if i < k then 0 else (toU8 (seg.pix (i - k) r c) : ℤ)⟩ : Vol) := by
    intro i hi r hr c hc
    simp only at hi hr hc ⊢
    split
    · rfl
    · rw [hz _ (by omega) _ hr _ hc]
      rfl
  have hz3 := allZero_crop crop hz2
  simp only [contourCore, cropStep_d]
  rw [if_neg hxm]
  simp only [cv2FindContoursOk]
  rw [findContours_nil (tileGrid_allZero hz3
    (gridXmaps (effNrow nrow (seg.d + k)) (seg.d + k))
    (gridYmaps (seg.d + k) (gridXmaps (effNrow nrow (seg.d + k)) (seg.d + k))) m)]
  simp only [Except.bind]
  cases color with
  | none => exact imgEq_refl base
  | some rgb =>
    refine ⟨rfl, rfl, fun i hi j hj => ?_⟩
    simp [drawContoursArr]

/-- C4 amended witness at a concrete input. -/
theorem empty_mask_returns_base_witness :
    exceptRel Img.Eq
      (draw_grid_contour cv2FindContoursOk base9 segZ none none (some 0) 0 1
        (some (1, 2, 3))) (.ok base9) :=
  empty_mask_returns_base base9 segZ none none 0 1 (some (1, 2, 3))
    (by decide) (by decide) (by decide) (by decide) (by decide)

/-- C5 counterexample: a singleton depth axis breaks the equivalence — with
`offset=1` the squeeze collapses volume (1, 2, 2) to 2-D so the 3-D padding
raises, while the same volume with one zero slice prepended succeeds under
`offset=0`, so the two results differ. -/
theorem offset_prepend_singleton_fails :
    draw_grid lutTriv vol1 none none (some 1) 0 1 none =
      .error .runtimeError ∧
    okSucceeds (draw_grid lutTriv (prependZeros 1 vol1) none none (some 0) 0 1
      none) = true :=
  ⟨rfl, by decide⟩

/-- C5 amended: for a volume with no axis of extent 1 and `k + depth ≠ 1` (so
that the squeeze step is the identity on both sides), composing with offset
`k` is observably equal to composing the volume with `k` zero-filled slices
prepended using offset 0, for every remaining configuration. -/
theorem offset_prepend_equivalence :
    ∀ (lut : ℕ → ℕ → Rgb) (v : Vol) (k : ℕ) (crop : Option CropSpec)
      (nrow : Option ℕ) (b : ℤ) (m : ℕ) (cmap : Option String),
      v.d ≠ 1 → v.h ≠ 1 → v.w ≠ 1 → k + v.d ≠ 1 →
      exceptRel Img.Eq (draw_grid lut v crop nrow (some k) b m cmap)
        (draw_grid lut (prependZeros k v) crop nrow (some 0) b m cmap) := by
  intro lut v k crop nrow b m cmap h1 h2 h3 h4
  rw [draw_grid_step lut crop nrow b m cmap v k h1 h2 h3]
  have e2 := draw_grid_step lut crop nrow b m cmap (prependZeros k v) 0
    (show (prependZeros k v).d ≠ 1 by simpa [prependZeros] using h4)
    (show (prependZeros k v).h ≠ 1 by simpa [prependZeros] using h2)
    (show (prependZeros k v).w ≠ 1 by simpa [prependZeros] using h3)
  rw [Nat.cast_zero] at e2
  rw [e2]
  apply drawGridCore_congr
  refine ⟨?_, rfl, rfl, ?_⟩
  · simp only [prependZeros]
    omega
  · intro i hi r hr c hc
    simp only [prependZeros] at hi hr hc ⊢
    simp

/-- C5 amended witness at a concrete input. -/
theorem offset_prepend_equivalence_witness :
    exceptRel Img.Eq (draw_grid lutTriv volRamp none none (some 2) 0 1 none)
      (draw_grid lutTriv (prependZeros 2 volRamp) none none (some 0) 0 1 none) :=
  offset_prepend_equivalence lutTriv volRamp 2 none none 0 1 none
    (by decide) (by decide) (by decide) (by decide)

/-- C6 counterexample: volume of depth 2, explicit column count 5, margin 1:
the claim demands 5 columns, i.e. output width `(2+1)*5 + 1 = 16`, but the
output width is 7 (2 columns): `make_grid` caps `nrow` at the slice count. -/
theorem column_count_cap_counterexample :
    okW (draw_grid lutTriv vol5 none (some 5) (some 0) 0 1 none) = 7 ∧
    (okW (draw_grid lutTriv vol5 none (some 5) (some 0) 0 1 none) ==
      (vol5.w + 1) * 5 + 1) = false :=
  ⟨by decide, by decide⟩

/-- C6 amended: with a non-negative offset `k` and no crop, the auto column
count is `ceil(sqrt(d + k))` as claimed (width `(w+m)*ceilSqrt(d+k) + m`),
but an explicitly configured column count `n ≥ 1` yields `min n (d + k)`
columns: `make_grid` caps `nrow` at the number of slices. -/
theorem column_count :
    ∀ (lut : ℕ → ℕ → Rgb) (v : Vol) (k : ℕ) (b : ℤ) (m : ℕ) (n : ℕ),
      v.d ≠ 1 → v.h ≠ 1 → v.w ≠ 1 → 1 ≤ v.d + k →
      (okSucceeds (draw_grid lut v none none (some k) b m none) = true ∧
       okW (draw_grid lut v none none (some k) b m none) =
         (v.w + m) * ceilSqrt (v.d + k) + m) ∧
      (1 ≤ n →
       okSucceeds (draw_grid lut v none (some n) (some k) b m none) = true ∧
       okW (draw_grid lut v none (some n) (some k) b m none) =
         (v.w + m) * min n (v.d + k) + m) := by
  intro lut v k b m n h1 h2 h3 hd1
  have hcs := ceilSqrt_spec (v.d + k) hd1
  constructor
  · rw [draw_grid_step lut none none b m none v k h1 h2 h3]
    have hxm : gridXmaps (effNrow none (v.d + k)) (v.d + k) =
        ceilSqrt (v.d + k) := by
      simp only [effNrow, gridXmaps]
      exact Nat.min_eq_left hcs.2
    simp only [drawGridCore, cropStep_none, hxm]
    rw [if_neg (by omega)]
    exact ⟨rfl, by simp [okW, tileImg, gridW]⟩
  · intro hn
    rw [draw_grid_step lut none (some n) b m none v k h1 h2 h3]
    have hxm : gridXmaps (effNrow (some n) (v.d + k)) (v.d + k) =
        min n (v.d + k) := rfl
    simp only [drawGridCore, cropStep_none, hxm]
    rw [if_neg (by omega)]
    exact ⟨rfl, by simp [okW, tileImg, gridW]⟩

/-- C6 amended witness: the spec's offset scenario (depth 4, offset 2,
margin 1, auto columns `ceilSqrt 6 = 3`, width `11*3+1 = 34`), and an
explicit column count 3 on the same volume. -/
theorem column_count_witness :
    okW (draw_grid lutTriv volScen none none (some 2) 0 1 none) = 34 ∧
    okW (draw_grid lutTriv volScen none (some 3) (some 2) 0 1 none) = 34 := by
  have h := column_count lutTriv volScen 2 0 1 3 (by decide) (by decide)
    (by decide) (by decide)
  have hc : ((2 : ℕ) : ℤ) = (2 : ℤ) := rfl
  constructor
  · have h1 := h.1.2
    rw [hc] at h1
    rw [h1]
    decide
  · have h2 := (h.2 (by decide)).2
    rw [hc] at h2
    rw [h2]
    decide

/-- C7 counterexample: a configuration without the `'target_im'` key makes
`run` raise `KeyError` (from `dict.pop`), which the `except AttributeError`
clause does not catch — no `display_msg` message is emitted and the exception
propagates. -/
theorem wrapper_missing_key_uncaught :
    draw_grid_wrapper_run lutTriv cv2FindContoursOk cfgMissing =
      .uncaught .keyError := rfl

/-- C7 amended: a missing `'target_im'` entry raises `KeyError`, which
propagates out of `run`; an invalid `'target_im'` object (whose use raises
`AttributeError`) is caught and reported via `display_msg` as the generic
"Wrong drawing configuration" message, provided a non-negative offset is
configured (the offset assertion runs first). -/
theorem wrapper_error_handling :
    (∀ (lut : ℕ → ℕ → Rgb) (findC : GridOut → Except PyExc (List (ℕ × ℕ)))
        (cfg : WrapperConfig),
      cfg.target_im = none →
      draw_grid_wrapper_run lut findC cfg = .uncaught .keyError) ∧
    (∀ (lut : ℕ → ℕ → Rgb) (findC : GridOut → Except PyExc (List (ℕ × ℕ)))
        (cfg : WrapperConfig) (k : ℤ),
      cfg.target_im = some .invalid → cfg.offset = some k → 0 ≤ k →
      draw_grid_wrapper_run lut findC cfg =
        .displayedMsg "Wrong drawing configuration") := by
  constructor
  · intro lut findC cfg h
    simp only [draw_grid_wrapper_run, h]
  · intro lut findC cfg k h1 h2 h3
    simp only [draw_grid_wrapper_run, h1, h2, offsetAssert]
    rw [if_pos h3]

/-- C7 amended witness: concrete instances of both halves. -/
theorem wrapper_error_handling_witness :
    draw_grid_wrapper_run lutTriv cv2FindContoursOk cfgInvalid =
      .displayedMsg "Wrong drawing configuration" ∧
    draw_grid_wrapper_run lutTriv cv2FindContoursOk
      ⟨none, none, none, none, none, some 1, 0, 1, none⟩ =
      .uncaught .keyError :=
  ⟨wrapper_error_handling.2 lutTriv cv2FindContoursOk cfgInvalid 0 rfl rfl
    (by decide),
   wrapper_error_handling.1 lutTriv cv2FindContoursOk _ rfl⟩

/-- C8: both composers are pure functions of their observable inputs: two
invocations on observably equal volumes (respectively, observably equal base
images and masks) and the same configuration produce observably equal
results; the embedding reads and writes no state (the `colormaps` table is a
fixed constant, and the external lookup table and contour extractor are
explicit parameters held fixed). -/
theorem composer_pure :
    (∀ (lut : ℕ → ℕ → Rgb) (crop : Option CropSpec) (nrow : Option ℕ)
        (off : Option ℤ) (b : ℤ) (m : ℕ) (cmap : Option String) (v₁ v₂ : Vol),
      Vol.Eq v₁ v₂ →
      exceptRel Img.Eq (draw_grid lut v₁ crop nrow off b m cmap)
        (draw_grid lut v₂ crop nrow off b m cmap)) ∧
    (∀ (crop : Option CropSpec) (nrow : Option ℕ) (off : Option ℤ) (b : ℤ)
        (m : ℕ) (color : Option Rgb) (b₁ b₂ : Img) (s₁ s₂ : Vol),
      Img.Eq b₁ b₂ → Vol.Eq s₁ s₂ →
      exceptRel Img.Eq
        (draw_grid_contour cv2FindContoursOk b₁ s₁ crop nrow off b m color)
        (draw_grid_contour cv2FindContoursOk b₂ s₂ crop nrow off b m color)) :=
  ⟨fun lut crop nrow off b m cmap _ _ h =>
    draw_grid_full_congr lut crop nrow off b m cmap h,
   fun crop nrow off b m color _ _ _ _ hb hs =>
    draw_grid_contour_full_congr crop nrow off b m color hb hs⟩

/-- C8 witness: two observably equal volumes written as different functions
produce observably equal outputs. -/
theorem composer_pure_witness :
    Vol.Eq volW1 volW2 ∧
    exceptRel Img.Eq (draw_grid lutTriv volW1 none none (some 0) 0 1 none)
      (draw_grid lutTriv volW2 none none (some 0) 0 1 none) :=
  ⟨by decide,
   composer_pure.1 lutTriv none none (some 0) 0 1 none volW1 volW2 (by decide)⟩

/-- C9 counterexample: a constant volume (all voxels 5) with configured
background 7 yields cell pixels (0, 0, 0), not the background value (7, 7, 7)
— the min-max normalization sends a constant volume to 0, and the background
only fills margins (scaled by 255). -/
theorem constant_volume_not_background :
    okPix (draw_grid lutTriv vol5 none none (some 0) 7 1 none) 1 1 =
      (0, 0, 0) ∧
    (okPix (draw_grid lutTriv vol5 none none (some 0) 7 1 none) 1 1 ==
      ((7, 7, 7) : Rgb)) = false :=
  ⟨by decide, by decide⟩

/-- C9 amended: with offset 0, no crop, no colormap, a volume with no axis of
extent 1 and a non-zero column count: a voxel attaining the volume minimum is
rendered as 0 and one attaining the maximum as 255 (full uint8 range) when
the volume is not constant; a constant volume renders all cell pixels as 0
(equal to the configured background only when that value is 0); and every
output pixel channel is a uint8 value (< 256). -/
theorem normalization_range :
    ∀ (lut : ℕ → ℕ → Rgb) (v : Vol) (nrow : Option ℕ) (b : ℤ) (m : ℕ),
      v.d ≠ 1 → v.h ≠ 1 → v.w ≠ 1 →
      gridXmaps (effNrow nrow v.d) v.d ≠ 0 →
      ((∀ k r c, k < v.d → r < v.h → c < v.w → v.pix k r c = volMin v →
          okPix (draw_grid lut v none nrow (some 0) b m none)
            (m + k / gridXmaps (effNrow nrow v.d) v.d * (v.h + m) + r)
            (m + k % gridXmaps (effNrow nrow v.d) v.d * (v.w + m) + c) =
            (0, 0, 0)) ∧
       (volMin v ≠ volMax v →
          ∀ k r c, k < v.d → r < v.h → c < v.w → v.pix k r c = volMax v →
          okPix (draw_grid lut v none nrow (some 0) b m none)
            (m + k / gridXmaps (effNrow nrow v.d) v.d * (v.h + m) + r)
            (m + k % gridXmaps (effNrow nrow v.d) v.d * (v.w + m) + c) =
            (255, 255, 255)) ∧
       (volMin v = volMax v →
          ∀ k r c, k < v.d → r < v.h → c < v.w →
          okPix (draw_grid lut v none nrow (some 0) b m none)
            (m + k / gridXmaps (effNrow nrow v.d) v.d * (v.h + m) + r)
            (m + k % gridXmaps (effNrow nrow v.d) v.d * (v.w + m) + c) =
            (0, 0, 0)) ∧
       (∀ i j,
          (okPix (draw_grid lut v none nrow (some 0) b m none) i j).1 < 256 ∧
          (okPix (draw_grid lut v none nrow (some 0) b m none) i j).2.1 < 256 ∧
          (okPix (draw_grid lut v none nrow (some 0) b m none) i j).2.2 < 256)) := by
  intro lut v nrow b m h1 h2 h3 hxm
  have hpixfun : (fun i r c => if i < 0 then 0 else v.pix (i - 0) r c) = v.pix := by
    funext i r c
    simp
  have hstep := draw_grid_step lut none nrow b m none v 0 h1 h2 h3
  rw [Nat.cast_zero, hpixfun] at hstep
  simp only [Nat.add_zero] at hstep
  have hcore : drawGridCore lut (⟨v.d, v.h, v.w, v.pix⟩ : Vol) none nrow b m
      none = drawGridCore lut v none nrow b m none := rfl
  rw [hcore] at hstep
  have hval : drawGridCore lut v none nrow b m none =
      .ok (tileImg v (gridXmaps (effNrow nrow v.d) v.d)
        (gridYmaps v.d (gridXmaps (effNrow nrow v.d) v.d)) m (volMin v)
        (volMax v) b) := by
    simp only [drawGridCore, cropStep_none]
    rw [if_neg hxm]
  rw [hstep, hval]
  simp only [okPix]
  have hxm0 : 0 < gridXmaps (effNrow nrow v.d) v.d := Nat.pos_of_ne_zero hxm
  have hcell : ∀ k r c, k < v.d → r < v.h → c < v.w →
      (tileImg v (gridXmaps (effNrow nrow v.d) v.d)
        (gridYmaps v.d (gridXmaps (effNrow nrow v.d) v.d)) m (volMin v)
        (volMax v) b).pix
        (m + k / gridXmaps (effNrow nrow v.d) v.d * (v.h + m) + r)
        (m + k % gridXmaps (effNrow nrow v.d) v.d * (v.w + m) + c) =
      (toU8 (normScale (volMin v) (volMax v) (v.pix k r c)),
       toU8 (normScale (volMin v) (volMax v) (v.pix k r c)),
       toU8 (normScale (volMin v) (volMax v) (v.pix k r c))) := by
    intro k r c hk hr hc
    have hdm : k / gridXmaps (effNrow nrow v.d) v.d *
        gridXmaps (effNrow nrow v.d) v.d +
        k % gridXmaps (effNrow nrow v.d) v.d = k := by
      rw [mul_comm]
      exact Nat.div_add_mod k _
    simp only [tileImg]
    rw [tileSlot_at v.d v.h v.w (gridXmaps (effNrow nrow v.d) v.d) m
      (k / gridXmaps (effNrow nrow v.d) v.d)
      (k % gridXmaps (effNrow nrow v.d) v.d) r c hr hc
      (Nat.mod_lt _ hxm0) (by omega)]
    rw [hdm]
  refine ⟨?_, ?_, ?_, ?_⟩
  · intro k r c hk hr hc hp
    rw [hcell k r c hk hr hc, hp, normScale_min]
    decide
  · intro hne k r c hk hr hc hp
    rw [hcell k r c hk hr hc, hp, normScale_max _ _ (Ne.symm hne)]
    decide
  · intro heq k r c hk hr hc
    rw [hcell k r c hk hr hc]
    rw [show normScale (volMin v) (volMax v) (v.pix k r c) = 0 from
      if_pos heq.symm]
    decide
  · intro i j
    simp only [tileImg]
    rcases htile : tileSlot v.d v.h v.w (gridXmaps (effNrow nrow v.d) v.d)
        m i j with _ | ⟨k0, r0, c0⟩
    · exact ⟨toU8_lt _, toU8_lt _, toU8_lt _⟩
    · exact ⟨toU8_lt _, toU8_lt _, toU8_lt _⟩

/-- C9 amended witness: on the ramp volume (values 0..7), the minimum voxel
renders as (0,0,0) at grid pixel (1,1) and the maximum as (255,255,255) at
grid pixel (2,5). -/
theorem normalization_range_witness :
    okPix (draw_grid lutTriv volRamp none none (some 0) 0 1 none) 1 1 =
      (0, 0, 0) ∧
    okPix (draw_grid lutTriv volRamp none none (some 0) 0 1 none) 2 5 =
      (255, 255, 255) := by
  have h := normalization_range lutTriv volRamp none 0 1 (by decide)
    (by decide) (by decide) (by decide)
  exact ⟨h.1 0 0 0 (by decide) (by decide) (by decide) (by decide),
    h.2.1 (by decide) 1 1 1 (by decide) (by decide) (by decide) (by decide)⟩

/-- C10: indexed lookup on the io reader wrapper returns Python `None` when no
reader has been configured (the guarded body is skipped), and otherwise
returns the reader's keyed lookup result unchanged. -/
theorem reader_getitem :
    (∀ (α : Type) (item : String), ngv_getitem (α := α) none item = none) ∧
    (∀ (α : Type) (r : String → α) (item : String),
      ngv_getitem (some r) item = some (r item)) :=
  ⟨fun _ _ => rfl, fun _ _ _ => rfl⟩

end NGV
